import Mathlib

/-!
Shallow embedding of `pyxtra.py`, a MySQL backup-chain manager.

The script keeps two flat log files under a backup root directory:
`base.log` (paths of full backups) and `incr.log` (paths of incremental
backups).  Every external action (the `xtrabackup` engine, `tail`,
`echo` redirection, `rm`, `rsync`, `ssh`, `service`) is shelled out.

Modelling decisions:
* A log file is `Option (List String)`: `none` means the file does not
  exist; `some ls` means it exists and its lines (without their
  terminating newline) are `ls`.  `some []` is an existing empty file.
* Python `str.strip()` is modelled by `pyStrip`, which drops leading and
  trailing whitespace from the string's character list.
* Every shell command the script launches is recorded as a `Cmd`
  constructor mirroring the exact format string at its call site;
  `Cmd.render` rebuilds the literal command string.
* The exit status of the backup engine (`xtrabackup --backup ...`) is
  the only external status the script branches on for full/incremental
  backups; it is supplied by an environment `Env` as a function of the
  invocation counter.  `tail -n1` exit statuses are determined by the
  modelled filesystem: missing file → nonzero, existing file → 0.
* Deletion of the backup directories themselves (`cat log | xargs rm -rf`)
  is outside the two-log-file state and is not modelled.
* `choose_incr_basedir` recurses after an implicit full backup; the
  model adds a fuel parameter, returning `none` in the second component
  when the fuel runs out (the concrete script would still be running).
  The trace of commands issued so far is returned in either case.
-/

/-- The two log files of the backup root.  `none` = file absent. -/
structure FS where
  baseLog : Option (List String)
  incrLog : Option (List String)
deriving DecidableEq, Repr

/-- Constructor arguments of `Xtrabackup` that the modelled methods read. -/
structure Config where
  user : String
  password : String
  target_dir : String
  target_user : Option String
  target_host : Option String
deriving DecidableEq, Repr

/-- Outcomes of the external backup engine: `oks k` is whether the k-th
engine invocation exits with status 0, `stamps k` the wall-clock timestamp
string `time.strftime` produces just before that invocation. -/
structure Env where
  oks : Nat → Bool
  stamps : Nat → String

/-- `Xtrabackup.MYSQL_STOP_CMD`. -/
def MYSQL_STOP_CMD : String := "service mysql stop"

/-- `Xtrabackup.MYSQL_RESTART_CMD`. -/
def MYSQL_RESTART_CMD : String := "service mysql restart"

/-- `Xtrabackup.CHOWN_MYSQL_DIR_CMD`. -/
def CHOWN_MYSQL_DIR_CMD : String := "chown -R mysql:mysql /var/lib/mysql"

/-- One external command issued by the script.  Each constructor mirrors one
format string of the source; `Cmd.render` reproduces the literal string. -/
inductive Cmd where
  /-- `BACKUP_CMD.format(user, password, target_dir)` (line 50/77). -/
  | backup (user password target_dir : String)
  /-- `INCR_BACKUP_CMD.format(user, password, target_dir, basedir)` (line 54/103). -/
  | incrBackup (user password target_dir basedir : String)
  /-- `xtrabackup --prepare --apply-log-only --target-dir=...` (line 155). -/
  | applyBase (target_dir : String)
  /-- `xtrabackup --prepare [--apply-log-only] --target-dir=... --incremental-dir=...`
  with the flag (line 163) or without it (line 167). -/
  | applyIncr (apply_log_only : Bool) (target_dir incremental_dir : String)
  /-- `os.system(c)` of one of the constant service/chown commands (lines 202-205). -/
  | sys (c : String)
  /-- `ssh user@host "c"` (lines 192, 197, 199). -/
  | ssh (user host c : String)
  /-- `rsync -avrP src /var/lib/mysql` (line 203). -/
  | rsyncLocal (src : String)
  /-- `rsync -avrP src user@host:/var/lib/mysql` (line 194). -/
  | rsyncRemote (src user host : String)
deriving DecidableEq, Repr

/-- The literal command string each `Cmd` stands for, rebuilt from the
source's format strings. -/
def Cmd.render : Cmd → String
  | .backup u p t =>
      "xtrabackup --user=" ++ u ++ " --password=" ++ p ++ " --backup --target-dir=" ++ t
  | .incrBackup u p t b =>
      "xtrabackup --user=" ++ u ++ " --password=" ++ p ++ " --backup --target-dir=" ++ t
        ++ " --incremental-basedir=" ++ b
  | .applyBase t =>
      "xtrabackup --prepare --apply-log-only --target-dir=" ++ t
  | .applyIncr true t i =>
      "xtrabackup --prepare --apply-log-only --target-dir=" ++ t ++ " --incremental-dir=" ++ i
  | .applyIncr false t i =>
      "xtrabackup --prepare --target-dir=" ++ t ++ " --incremental-dir=" ++ i
  | .sys c => c
  | .ssh u h c => "ssh " ++ u ++ "@" ++ h ++ " \"" ++ c ++ "\""
  | .rsyncLocal s => "rsync -avrP " ++ s ++ " /var/lib/mysql"
  | .rsyncRemote s u h => "rsync -avrP " ++ s ++ " " ++ u ++ "@" ++ h ++ ":/var/lib/mysql"

/-- Python `str.strip()` (no argument): remove leading and trailing
whitespace.  Defined on the character list so that it evaluates by kernel
reduction. -/
def pyStrip (s : String) : String :=
  ⟨((s.data.dropWhile Char.isWhitespace).reverse.dropWhile Char.isWhitespace).reverse⟩

/-- `subprocess.getstatusoutput('tail -n1 FILE')` on the modelled file:
missing file → exit 1 (output unread by the script); existing file →
exit 0 and the last line (empty output for an empty file). -/
def tailLast : Option (List String) → Nat × String
  | none => (1, "")
  | some ls => (0, ls.getLastD "")

/-- `Xtrabackup.read_log_to_list`: `readlines()` of the file, `[]` when the
open raises `IOError` (file missing). -/
def read_log_to_list : Option (List String) → List String
  | none => []
  | some ls => ls

/-- The shell redirection operator passed to `backup_log`:
`trunc` is `'>'`, `append` is `'>>'`. -/
inductive Operate where
  | trunc
  | append
deriving DecidableEq, Repr

/-- `Xtrabackup.backup_log(file, data, operate)`: strip `data`; when nonempty,
run `echo data OP file` (both `>` and `>>` create the file if absent). -/
def backup_log (file : Option (List String)) (data : String) (operate : Operate) :
    Option (List String) :=
  let d := pyStrip data
  if d = "" then file
  else
    match operate with
    | .trunc => some [d]
    | .append => some (file.getD [] ++ [d])

/-- `Xtrabackup.clear_inrc_bak`: `cat incr.log | xargs rm -rf` and
`cat base.log | xargs rm -rf` delete the listed backup directories (outside
this model); `rm -rf incr.log` then removes the incremental log file.
`base.log` itself is not removed here. -/
def clear_inrc_bak (st : FS) : FS :=
  { st with incrLog := none }

/-- The timestamped full-backup directory `os.path.join(target_dir, STAMP + '-base')`. -/
def mkBaseDir (cfg : Config) (stamp : String) : String :=
  cfg.target_dir ++ "/" ++ stamp ++ "-base"

/-- The timestamped incremental directory `os.path.join(target_dir, STAMP + '-inc')`. -/
def mkIncDir (cfg : Config) (stamp : String) : String :=
  cfg.target_dir ++ "/" ++ stamp ++ "-inc"

/-- `Xtrabackup.base_backup`: run the full-backup command; on exit 0,
`clear_inrc_bak()` then `backup_log(base_log_file, target_dir, '>')`.
Returns the updated logs and the issued commands. -/
def base_backup (cfg : Config) (stamp : String) (ok : Bool) (st : FS) : FS × List Cmd :=
  let target_dir := mkBaseDir cfg stamp
  let tr := [Cmd.backup cfg.user cfg.password target_dir]
  if ok then
    let st1 := clear_inrc_bak st
    ({ st1 with baseLog := backup_log st1.baseLog target_dir .trunc }, tr)
  else (st, tr)

/-- `Xtrabackup.choose_incr_basedir` with explicit fuel (the source recurses
unboundedly).  `tail -n1 incr.log`; on failure `tail -n1 base.log`; on failure
of both, run `base_backup` and recurse.  Returns the commands issued and,
when the source would return, the final logs, the next engine-invocation
counter, and the chosen basedir. -/
def choose_incr_basedir (cfg : Config) (env : Env) :
    Nat → Nat → FS → List Cmd × Option (FS × Nat × String)
  | 0, _, _ => ([], none)
  | fuel+1, k, st =>
    if (tailLast st.incrLog).1 ≠ 0 then
      if (tailLast st.baseLog).1 ≠ 0 then
        let bb := base_backup cfg (env.stamps k) (env.oks k) st
        let rest := choose_incr_basedir cfg env fuel (k+1) bb.1
        (bb.2 ++ rest.1, rest.2)
      else ([], some (st, k, pyStrip (tailLast st.baseLog).2))
    else ([], some (st, k, pyStrip (tailLast st.incrLog).2))

/-- `Xtrabackup.inc_backup`: compute the timestamped `-inc` directory, choose
the basedir, run the incremental command; on exit 0,
`backup_log(incr_log_file, target_dir)` (append).  Second component `none`
models chain selection not returning within the fuel. -/
def inc_backup (cfg : Config) (env : Env) (stamp : String) (fuel k : Nat) (st : FS) :
    List Cmd × Option FS :=
  let target_dir := mkIncDir cfg stamp
  match choose_incr_basedir cfg env fuel k st with
  | (tr1, none) => (tr1, none)
  | (tr1, some (st1, k1, basedir)) =>
    let tr := tr1 ++ [Cmd.incrBackup cfg.user cfg.password target_dir basedir]
    if env.oks k1 then
      (tr, some { st1 with incrLog := backup_log st1.incrLog target_dir .append })
    else
      (tr, some st1)

/-- `Xtrabackup.prepare`: read both logs; `False` (modelled `false`) with no
command when `base.log` yields no lines (after `print('log file is empty!')`);
otherwise apply-log-only the last base entry, and when incrementals exist and
the base entry is nonblank, apply every incremental but the last with
`--apply-log-only` and the last one without it. -/
def prepare (st : FS) : List Cmd × Bool :=
  let base_list := read_log_to_list st.baseLog
  let incr_list := read_log_to_list st.incrLog
  if base_list.length = 0 then ([], false)
  else
    let base_bak := pyStrip (base_list.getLastD "")
    let tr1 := [Cmd.applyBase base_bak]
    if 0 < incr_list.length ∧ base_bak ≠ "" then
      let end_incr := incr_list.getLastD ""
      (tr1 ++ incr_list.dropLast.map (fun i => Cmd.applyIncr true base_bak i)
          ++ [Cmd.applyIncr false base_bak end_incr], true)
    else (tr1, true)

/-- Python truthiness of an optional string argument: `None` and `''` are
falsy, any other string truthy. -/
def truthy : Option String → Bool
  | none => false
  | some s => s != ""

/-- `Xtrabackup.restore`: re-run `prepare` (result ignored), take
`read_log_to_list(base_log_file).pop().strip() + '/'` — `pop()` on an empty
list raises an uncaught `IndexError`, modelled by result `none` — then either
the remote ssh/rsync sequence (when `target_host and target_user` is truthy)
or the local sequence. -/
def restore (cfg : Config) (st : FS) : List Cmd × Option Unit :=
  let tr0 := (prepare st).1
  match (read_log_to_list st.baseLog).getLast? with
  | none => (tr0, none)
  | some lastLine =>
    let base_dir := pyStrip lastLine ++ "/"
    if truthy cfg.target_host && truthy cfg.target_user then
      let u := cfg.target_user.getD ""
      let h := cfg.target_host.getD ""
      (tr0 ++ [Cmd.ssh u h MYSQL_STOP_CMD, Cmd.rsyncRemote base_dir u h,
               Cmd.ssh u h CHOWN_MYSQL_DIR_CMD, Cmd.ssh u h MYSQL_RESTART_CMD], some ())
    else
      (tr0 ++ [Cmd.sys MYSQL_STOP_CMD, Cmd.rsyncLocal base_dir,
               Cmd.sys CHOWN_MYSQL_DIR_CMD, Cmd.sys MYSQL_RESTART_CMD], some ())

/-- The `__main__` dispatch for `action == 'restore'` (lines 228-235): when
`--local` is truthy, call `restore()`; otherwise require both `target_user`
and `target_host` (else print the missing-argument message, modelled `none`)
and call `restore()`. -/
def restore_dispatch (cfg : Config) (localArg : Option String) (st : FS) :
    Option (List Cmd × Option Unit) :=
  if truthy localArg then some (restore cfg st)
  else if !(truthy cfg.target_user) || !(truthy cfg.target_host) then none
  else some (restore cfg st)

/-- Number of full-backup engine invocations in a trace. -/
def countBackups (tr : List Cmd) : Nat :=
  tr.countP fun c => match c with | Cmd.backup _ _ _ => true | _ => false

/-- Concrete configuration matching the argparse defaults. -/
def cfg0 : Config := ⟨"root", "123456", "/mysql_bak", none, none⟩

/-- Environment where every engine invocation succeeds. -/
def envT : Env := ⟨fun _ => true, fun _ => "2020-01-01-00-00-00"⟩

/-- Environment where every engine invocation fails. -/
def envF : Env := ⟨fun _ => false, fun _ => "2020-01-01-00-00-00"⟩

/-- Environment where only the first engine invocation succeeds. -/
def envTF : Env := ⟨fun k => k == 0, fun _ => "2020-01-01-00-00-00"⟩

/-! ### Helper lemmas -/

theorem mkBaseDir_not_empty (cfg : Config) (stamp : String) : mkBaseDir cfg stamp ≠ "" := by
  intro h
  have h2 := congrArg String.length h
  rw [mkBaseDir, String.length_append] at h2
  have h5 : ("-base" : String).length = 5 := rfl
  have h0 : ("" : String).length = 0 := rfl
  omega

theorem mkIncDir_not_empty (cfg : Config) (stamp : String) : mkIncDir cfg stamp ≠ "" := by
  intro h
  have h2 := congrArg String.length h
  rw [mkIncDir, String.length_append] at h2
  have h4 : ("-inc" : String).length = 4 := rfl
  have h0 : ("" : String).length = 0 := rfl
  omega

theorem tailLast_fst_ne_zero {o : Option (List String)} (h : (tailLast o).1 ≠ 0) : o = none := by
  cases o with
  | none => rfl
  | some ls => simp [tailLast] at h

/-- When chain selection returns, the incremental log is never changed by it:
either it returned at once, or it recursed only from a state with a missing
`incr.log`, which the implicit full backup leaves missing. -/
theorem choose_incrLog_eq (cfg : Config) (env : Env) :
    ∀ fuel k st tr st1 k1 bd,
      choose_incr_basedir cfg env fuel k st = (tr, some (st1, k1, bd)) →
      st1.incrLog = st.incrLog := by
  intro fuel
  induction fuel with
  | zero =>
    intro k st tr st1 k1 bd h
    simp [choose_incr_basedir] at h
  | succ n ih =>
    intro k st tr st1 k1 bd h
    by_cases h1 : (tailLast st.incrLog).1 ≠ 0
    · by_cases h2 : (tailLast st.baseLog).1 ≠ 0
      · simp only [choose_incr_basedir, if_pos h1, if_pos h2] at h
        rcases hc : choose_incr_basedir cfg env n (k+1)
            (base_backup cfg (env.stamps k) (env.oks k) st).1 with ⟨tr2, r2⟩
        rw [hc] at h
        have hr2 : r2 = some (st1, k1, bd) := congrArg Prod.snd h
        have hpre := ih (k+1) (base_backup cfg (env.stamps k) (env.oks k) st).1 tr2 st1 k1 bd
          (by rw [hc, hr2])
        have hincr : (base_backup cfg (env.stamps k) (env.oks k) st).1.incrLog = st.incrLog := by
          have hnone := tailLast_fst_ne_zero h1
          cases hok : env.oks k <;> simp [base_backup, clear_inrc_bak, hok, hnone]
        rw [hpre, hincr]
      · simp only [choose_incr_basedir, if_pos h1, if_neg h2] at h
        have : st1 = st := by
          have := congrArg Prod.snd h
          simp at this
          exact (this.1).symm
        rw [this]
    · simp only [choose_incr_basedir, if_neg h1] at h
      have := congrArg Prod.snd h
      simp at this
      rw [← this.1]

/-- With a backup engine that always fails, chain selection from a state with
both logs missing yields no result at any recursion depth. -/
theorem choose_allfail_snd_none (cfg : Config) (env : Env) (hf : ∀ j, env.oks j = false) :
    ∀ fuel k, (choose_incr_basedir cfg env fuel k ⟨none, none⟩).2 = none := by
  intro fuel
  induction fuel with
  | zero => intro k; rfl
  | succ n ih =>
    intro k
    simp only [choose_incr_basedir, tailLast, base_backup, hf k, if_false]
    simpa using ih (k+1)

/-! ### Claim theorems -/

/-- Claim C1: whenever the external full-backup command exits with status 0,
immediately afterwards `incr.log` is absent (hence empty) and the last line of
`base.log` equals the newly created timestamped backup directory path.
(The hypothesis states that the directory path carries no surrounding
whitespace, which holds for every path the script builds.) -/
theorem base_backup_success_resets_chain (cfg : Config) (stamp : String) (st : FS)
    (htrim : pyStrip (mkBaseDir cfg stamp) = mkBaseDir cfg stamp) :
    (base_backup cfg stamp true st).1.incrLog = none ∧
    (base_backup cfg stamp true st).1.baseLog = some [mkBaseDir cfg stamp] ∧
    ((base_backup cfg stamp true st).1.baseLog.getD []).getLast? = some (mkBaseDir cfg stamp) := by
  simp [base_backup, clear_inrc_bak, backup_log, htrim, mkBaseDir_not_empty cfg stamp]

/-- Witness: a successful full backup with the default configuration leaves
`incr.log` absent and `base.log` ending in the new directory. -/
theorem base_backup_success_resets_chain_wit :
    (base_backup cfg0 "2020-01-01-00-00-00" true ⟨some ["/mysql_bak/old"], some ["/i"]⟩).1.incrLog
        = none ∧
    (base_backup cfg0 "2020-01-01-00-00-00" true ⟨some ["/mysql_bak/old"], some ["/i"]⟩).1.baseLog
        = some [mkBaseDir cfg0 "2020-01-01-00-00-00"] ∧
    ((base_backup cfg0 "2020-01-01-00-00-00" true
        ⟨some ["/mysql_bak/old"], some ["/i"]⟩).1.baseLog.getD []).getLast?
        = some (mkBaseDir cfg0 "2020-01-01-00-00-00") :=
  base_backup_success_resets_chain cfg0 "2020-01-01-00-00-00"
    ⟨some ["/mysql_bak/old"], some ["/i"]⟩ (by decide)

/-- Counterexample to claim C2: with a non-empty `base.log` and an empty
`incr.log`, the single apply step `prepare` issues for the base directory is
the command of source line 155, which carries `--apply-log-only` — it is not
the final, non-log-only apply the claim asserts. -/
theorem prepare_no_incr_cex :
    (prepare ⟨some ["/mysql_bak/B"], none⟩).1.map Cmd.render =
      ["xtrabackup --prepare --apply-log-only --target-dir=/mysql_bak/B"] ∧
    (prepare ⟨some ["/mysql_bak/B"], none⟩).1.map Cmd.render ≠
      ["xtrabackup --prepare --target-dir=/mysql_bak/B"] := by
  constructor
  · rfl
  · decide

/-- Claim C2 (amended): for every invocation of `prepare` where `base.log` is
non-empty and `incr.log` is empty, the base directory (last entry of
`base.log`) receives exactly one apply step, and that apply is a log-only
apply, carrying the `--apply-log-only` flag. -/
theorem prepare_no_incr_single_apply (st : FS)
    (hB : read_log_to_list st.baseLog ≠ [])
    (hI : read_log_to_list st.incrLog = []) :
    (prepare st).1 = [Cmd.applyBase (pyStrip ((read_log_to_list st.baseLog).getLastD ""))] ∧
    (prepare st).1.map Cmd.render =
      ["xtrabackup --prepare --apply-log-only --target-dir="
        ++ pyStrip ((read_log_to_list st.baseLog).getLastD "")] := by
  have hlen : ¬ (read_log_to_list st.baseLog).length = 0 := by
    simpa [List.length_eq_zero] using hB
  constructor
  · simp [prepare, hI, hlen]
  · simp [prepare, hI, hlen, Cmd.render]

/-- Witness: `prepare` on a one-entry `base.log` and missing `incr.log`. -/
theorem prepare_no_incr_single_apply_wit :
    (prepare ⟨some ["/mysql_bak/2020-base"], none⟩).1 =
      [Cmd.applyBase (pyStrip ("/mysql_bak/2020-base" : String))] ∧
    (prepare ⟨some ["/mysql_bak/2020-base"], none⟩).1.map Cmd.render =
      ["xtrabackup --prepare --apply-log-only --target-dir="
        ++ pyStrip ("/mysql_bak/2020-base" : String)] :=
  prepare_no_incr_single_apply ⟨some ["/mysql_bak/2020-base"], none⟩
    (by decide) (by decide)

/-- Claim C3: with a non-empty `base.log` and N ≥ 1 incremental entries,
`prepare` issues, in order: a log-only replay of the base directory, log-only
applies of the first N−1 incremental directories onto the base in file order,
and a final non-log-only apply of the last incremental onto the base.
(The hypothesis that the base entry trims to a nonblank string reflects the
data-model invariant that log lines are directory paths.) -/
theorem prepare_incr_apply_order (st : FS)
    (hB : read_log_to_list st.baseLog ≠ [])
    (hI : read_log_to_list st.incrLog ≠ [])
    (hbb : pyStrip ((read_log_to_list st.baseLog).getLastD "") ≠ "") :
    prepare st =
      ([Cmd.applyBase (pyStrip ((read_log_to_list st.baseLog).getLastD ""))] ++
        (read_log_to_list st.incrLog).dropLast.map
          (fun i => Cmd.applyIncr true (pyStrip ((read_log_to_list st.baseLog).getLastD "")) i) ++
        [Cmd.applyIncr false (pyStrip ((read_log_to_list st.baseLog).getLastD ""))
          ((read_log_to_list st.incrLog).getLastD "")], true) := by
  have hlen : ¬ (read_log_to_list st.baseLog).length = 0 := by
    simpa [List.length_eq_zero] using hB
  have hpos : 0 < (read_log_to_list st.incrLog).length := List.length_pos.2 hI
  have hbb2 : ¬ pyStrip ((read_log_to_list st.baseLog).getLast?.getD "") = "" := by
    simpa [List.getLastD_eq_getLast?] using hbb
  simp [prepare, hlen, hpos, hbb2]

/-- Witness: `prepare` with one base entry and three incrementals issues the
log-only base apply, two log-only incremental applies, then the final apply. -/
theorem prepare_incr_apply_order_wit :
    prepare ⟨some ["/mysql_bak/B"], some ["/i1", "/i2", "/i3"]⟩ =
      ([Cmd.applyBase (pyStrip ("/mysql_bak/B" : String))] ++
        (["/i1", "/i2", "/i3"] : List String).dropLast.map
          (fun i => Cmd.applyIncr true (pyStrip ("/mysql_bak/B" : String)) i) ++
        [Cmd.applyIncr false (pyStrip ("/mysql_bak/B" : String))
          ((["/i1", "/i2", "/i3"] : List String).getLastD "")], true) :=
  prepare_incr_apply_order ⟨some ["/mysql_bak/B"], some ["/i1", "/i2", "/i3"]⟩
    (by decide) (by decide) (by decide)

/-- Counterexample to claim C4: when `incr.log` exists but is empty (and
`base.log` has one entry), `tail -n1 incr.log` exits 0 with empty output, so
`choose_incr_basedir` returns the empty string, not the last line of
`base.log`. -/
theorem choose_basedir_empty_incrlog_cex :
    choose_incr_basedir cfg0 envT 1 0 ⟨some ["/mysql_bak/2020-base"], some []⟩ =
      ([], some (⟨some ["/mysql_bak/2020-base"], some []⟩, 0, "")) ∧
    ("" : String) ≠ "/mysql_bak/2020-base" := by
  constructor
  · rfl
  · decide

/-- Claim C4 (amended): for every state in which `incr.log` is missing and
`base.log` contains at least one entry, `choose_incr_basedir` returns the
(stripped) last line of `base.log` as the basedir, issuing no command and
leaving the logs unchanged. -/
theorem choose_basedir_missing_incrlog_uses_base (cfg : Config) (env : Env)
    (fuel k : Nat) (st : FS) (ls : List String)
    (hi : st.incrLog = none) (hb : st.baseLog = some ls) (hne : ls ≠ [])
    (htrim : pyStrip (ls.getLastD "") = ls.getLastD "") :
    choose_incr_basedir cfg env (fuel + 1) k st = ([], some (st, k, ls.getLastD "")) := by
  have htrim2 : pyStrip (ls.getLast?.getD "") = ls.getLast?.getD "" := by
    simpa [List.getLastD_eq_getLast?] using htrim
  simp [choose_incr_basedir, tailLast, hi, hb, htrim2]

/-- Witness: a missing `incr.log` next to a two-entry `base.log`. -/
theorem choose_basedir_missing_incrlog_uses_base_wit :
    choose_incr_basedir cfg0 envT 1 0 ⟨some ["/mysql_bak/A-base", "/mysql_bak/B-base"], none⟩ =
      ([], some (⟨some ["/mysql_bak/A-base", "/mysql_bak/B-base"], none⟩, 0,
        (["/mysql_bak/A-base", "/mysql_bak/B-base"] : List String).getLastD "")) :=
  choose_basedir_missing_incrlog_uses_base cfg0 envT 0 0
    ⟨some ["/mysql_bak/A-base", "/mysql_bak/B-base"], none⟩
    ["/mysql_bak/A-base", "/mysql_bak/B-base"] rfl rfl (by decide) (by decide)

/-- Claim C5: whenever `incr.log` is non-empty, `choose_incr_basedir` returns
its (stripped) last line as the basedir, regardless of the contents of
`base.log`, issuing no command and leaving the logs unchanged. -/
theorem choose_basedir_incrlog_last (cfg : Config) (env : Env) (fuel k : Nat)
    (st : FS) (ls : List String)
    (hi : st.incrLog = some ls) (hne : ls ≠ [])
    (htrim : pyStrip (ls.getLastD "") = ls.getLastD "") :
    choose_incr_basedir cfg env (fuel + 1) k st = ([], some (st, k, ls.getLastD "")) := by
  have htrim2 : pyStrip (ls.getLast?.getD "") = ls.getLast?.getD "" := by
    simpa [List.getLastD_eq_getLast?] using htrim
  simp [choose_incr_basedir, tailLast, hi, htrim2]

/-- Witness: a two-entry `incr.log` wins over a conflicting `base.log`. -/
theorem choose_basedir_incrlog_last_wit :
    choose_incr_basedir cfg0 envT 1 0 ⟨some ["/mysql_bak/B-base"], some ["/i1", "/i2"]⟩ =
      ([], some (⟨some ["/mysql_bak/B-base"], some ["/i1", "/i2"]⟩, 0,
        (["/i1", "/i2"] : List String).getLastD "")) :=
  choose_basedir_incrlog_last cfg0 envT 0 0
    ⟨some ["/mysql_bak/B-base"], some ["/i1", "/i2"]⟩ ["/i1", "/i2"]
    rfl (by decide) (by decide)

/-- Counterexample to claim C6: starting with both logs missing and a backup
engine whose invocations all fail, two recursion levels already issue two
full-backup commands and chain selection has not returned — refuting both
"at most one implicit full backup" and "chain selection terminates for every
outcome of the implicit full backup".  Additionally, when both logs exist but
are empty, chain selection returns the empty string at once and performs no
implicit full backup at all, refuting "exactly one before the incremental
proceeds" for the "empty" half of the claim's precondition. -/
theorem choose_basedir_implicit_backup_cex :
    (choose_incr_basedir cfg0 envF 2 0 ⟨none, none⟩).2 = none ∧
    countBackups (choose_incr_basedir cfg0 envF 2 0 ⟨none, none⟩).1 = 2 ∧
    choose_incr_basedir cfg0 envT 1 0 ⟨some [], some []⟩ =
      ([], some (⟨some [], some []⟩, 0, "")) := by
  refine ⟨rfl, rfl, rfl⟩

/-- Claim C6 (amended): starting from a state where both `base.log` and
`incr.log` are missing: if the implicit full backup (the next engine
invocation) succeeds, chain selection performs exactly one implicit full
backup and returns the newly created full backup's directory as the basedir
for the incremental; if every engine invocation fails, chain selection never
returns (the recursion diverges: no fuel bound suffices); and if the two logs
exist but are empty, no implicit full backup is performed and the empty
string is returned at once. -/
theorem choose_basedir_implicit_backup_behavior (cfg : Config) (env : Env) (k fuel : Nat) :
    (env.oks k = true →
      pyStrip (mkBaseDir cfg (env.stamps k)) = mkBaseDir cfg (env.stamps k) →
      choose_incr_basedir cfg env (fuel + 2) k ⟨none, none⟩ =
        ([Cmd.backup cfg.user cfg.password (mkBaseDir cfg (env.stamps k))],
         some (⟨some [mkBaseDir cfg (env.stamps k)], none⟩, k + 1,
           mkBaseDir cfg (env.stamps k)))) ∧
    ((∀ j, env.oks j = false) →
      (choose_incr_basedir cfg env fuel k ⟨none, none⟩).2 = none) ∧
    choose_incr_basedir cfg env (fuel + 1) k ⟨some [], some []⟩ =
      ([], some (⟨some [], some []⟩, k, "")) := by
  refine ⟨fun hok htrim => ?_, fun hf => choose_allfail_snd_none cfg env hf fuel k, ?_⟩
  · simp [choose_incr_basedir, tailLast, base_backup, clear_inrc_bak, backup_log,
      hok, htrim, mkBaseDir_not_empty cfg (env.stamps k)]
  · simp [choose_incr_basedir, tailLast, pyStrip]

/-- Witness: the success half with an always-succeeding engine, and the
divergence half with an always-failing engine, both from missing logs. -/
theorem choose_basedir_implicit_backup_behavior_wit :
    choose_incr_basedir cfg0 envT 2 0 ⟨none, none⟩ =
      ([Cmd.backup cfg0.user cfg0.password (mkBaseDir cfg0 (envT.stamps 0))],
       some (⟨some [mkBaseDir cfg0 (envT.stamps 0)], none⟩, 1,
         mkBaseDir cfg0 (envT.stamps 0))) ∧
    (choose_incr_basedir cfg0 envF 7 0 ⟨none, none⟩).2 = none :=
  ⟨(choose_basedir_implicit_backup_behavior cfg0 envT 0 0).1 rfl (by decide),
   (choose_basedir_implicit_backup_behavior cfg0 envF 0 7).2.1 (fun _ => rfl)⟩

/-- Claim C7: invoked with no recorded base backup (`base.log` empty or
missing), `prepare` reports the empty chain (prints the message and returns
`False`, modelled `false`) and issues no command, and `restore` — whose call
to `prepare` issues no command either — aborts (the `pop()` on the empty line
list raises an uncaught `IndexError`, modelled by the `none` outcome) without
issuing any apply, stop, copy, chown or restart command. -/
theorem prepare_restore_empty_chain_abort (cfg : Config) (st : FS)
    (hB : read_log_to_list st.baseLog = []) :
    prepare st = ([], false) ∧ restore cfg st = ([], none) := by
  constructor
  · simp [prepare, hB]
  · simp [restore, prepare, hB]

/-- Witness: `prepare` and `restore` with a missing `base.log`. -/
theorem prepare_restore_empty_chain_abort_wit :
    prepare ⟨none, some ["/i1"]⟩ = ([], false) ∧
    restore cfg0 ⟨none, some ["/i1"]⟩ = ([], none) :=
  prepare_restore_empty_chain_abort cfg0 ⟨none, some ["/i1"]⟩ rfl

/-- Counterexample to claim C8: starting with both logs missing, chain
selection inside the incremental backup performs an implicit full backup
(engine invocation 0 succeeds); the incremental command itself (engine
invocation 1) then exits non-zero, yet `base.log` has changed from missing to
one entry — the logs are not "left unchanged" on a failing incremental. -/
theorem inc_backup_failure_changes_baselog_cex :
    envTF.oks 1 = false ∧
    (inc_backup cfg0 envTF "2020-02-02-00-00-00" 2 0 ⟨none, none⟩).2 =
      some ⟨some ["/mysql_bak/2020-01-01-00-00-00-base"], none⟩ ∧
    (⟨some ["/mysql_bak/2020-01-01-00-00-00-base"], none⟩ : FS).baseLog ≠
      (⟨none, none⟩ : FS).baseLog := by
  refine ⟨rfl, rfl, by decide⟩

/-- Claim C8 (amended): once chain selection has returned (final logs `st1`,
invocation counter `k1`, basedir `bd`), the new timestamped directory path is
appended as the last line of `incr.log` iff the incremental command exits 0;
on a non-zero exit the state is exactly `st1` — unchanged from the moment the
incremental command ran, so `incr.log` equals its original contents, while
`base.log` may differ from the original only through the implicit full backup
chain selection itself performed. -/
theorem inc_backup_log_append_iff_success (cfg : Config) (env : Env) (stamp : String)
    (fuel k : Nat) (st st1 : FS) (k1 : Nat) (bd : String) (tr1 : List Cmd)
    (hsel : choose_incr_basedir cfg env fuel k st = (tr1, some (st1, k1, bd)))
    (htrim : pyStrip (mkIncDir cfg stamp) = mkIncDir cfg stamp) :
    (env.oks k1 = true →
      (inc_backup cfg env stamp fuel k st).2 =
        some { st1 with incrLog := some (st1.incrLog.getD [] ++ [mkIncDir cfg stamp]) } ∧
      (st1.incrLog.getD [] ++ [mkIncDir cfg stamp]).getLast? = some (mkIncDir cfg stamp)) ∧
    (env.oks k1 = false →
      (inc_backup cfg env stamp fuel k st).2 = some st1 ∧ st1.incrLog = st.incrLog) := by
  constructor
  · intro hok
    refine ⟨?_, List.getLast?_concat _⟩
    simp [inc_backup, hsel, hok, backup_log, htrim, mkIncDir_not_empty cfg stamp]
  · intro hok
    exact ⟨by simp [inc_backup, hsel, hok],
      choose_incrLog_eq cfg env fuel k st tr1 st1 k1 bd hsel⟩

/-- Witness: a successful incremental on an existing chain appends the new
`-inc` directory as the last line of `incr.log`. -/
theorem inc_backup_log_append_iff_success_wit :
    (inc_backup cfg0 envT "2020-03-03-00-00-00" 1 0
        ⟨some ["/mysql_bak/B"], some ["/i1"]⟩).2 =
      some { (⟨some ["/mysql_bak/B"], some ["/i1"]⟩ : FS) with
        incrLog := some ((⟨some ["/mysql_bak/B"], some ["/i1"]⟩ : FS).incrLog.getD []
          ++ [mkIncDir cfg0 "2020-03-03-00-00-00"]) } ∧
    ((⟨some ["/mysql_bak/B"], some ["/i1"]⟩ : FS).incrLog.getD []
        ++ [mkIncDir cfg0 "2020-03-03-00-00-00"]).getLast? =
      some (mkIncDir cfg0 "2020-03-03-00-00-00") :=
  (inc_backup_log_append_iff_success cfg0 envT "2020-03-03-00-00-00" 1 0
    ⟨some ["/mysql_bak/B"], some ["/i1"]⟩ ⟨some ["/mysql_bak/B"], some ["/i1"]⟩
    0 "/i1" [] rfl (by decide)).1 rfl

/-- Claim C9: every restore invocation that takes the local branch (the remote
condition `target_host and target_user` is falsy) first re-runs `prepare`,
resolves the base directory as the (stripped) last entry of `base.log`, and
then issues exactly: stop the service, rsync the base directory's contents
(trailing slash) into `/var/lib/mysql`, fix ownership, restart — in that
order. -/
theorem restore_local_sequence (cfg : Config) (st : FS) (l : String)
    (hlocal : (truthy cfg.target_host && truthy cfg.target_user) = false)
    (hlast : (read_log_to_list st.baseLog).getLast? = some l) :
    restore cfg st =
      ((prepare st).1 ++
        [Cmd.sys MYSQL_STOP_CMD, Cmd.rsyncLocal (pyStrip l ++ "/"),
         Cmd.sys CHOWN_MYSQL_DIR_CMD, Cmd.sys MYSQL_RESTART_CMD], some ()) := by
  simp [restore, hlast, hlocal]

/-- Witness: local restore (no remote user/host configured) on a one-entry
`base.log`. -/
theorem restore_local_sequence_wit :
    restore cfg0 ⟨some ["/mysql_bak/B"], none⟩ =
      ((prepare ⟨some ["/mysql_bak/B"], none⟩).1 ++
        [Cmd.sys MYSQL_STOP_CMD, Cmd.rsyncLocal (pyStrip ("/mysql_bak/B") ++ "/"),
         Cmd.sys CHOWN_MYSQL_DIR_CMD, Cmd.sys MYSQL_RESTART_CMD], some ()) :=
  restore_local_sequence cfg0 ⟨some ["/mysql_bak/B"], none⟩ "/mysql_bak/B" rfl rfl

/-- Claim C10 (implicit): the `restore` method decides remote vs local solely
from the truthiness of `target_host and target_user`; the `--local` flag only
selects the dispatch branch and is never consulted inside `restore`.  Hence an
invocation with `--local=1` and both `target_user` and `target_host` set
performs the remote-mode restore (ssh stop, rsync to the remote host, ssh
chown, ssh restart), not the local one. -/
theorem restore_dispatch_local_flag_remote (cfg : Config) (st : FS) (l : String)
    (hu : truthy cfg.target_user = true) (hh : truthy cfg.target_host = true)
    (hlast : (read_log_to_list st.baseLog).getLast? = some l) :
    restore_dispatch cfg (some "1") st =
      some ((prepare st).1 ++
        [Cmd.ssh (cfg.target_user.getD "") (cfg.target_host.getD "") MYSQL_STOP_CMD,
         Cmd.rsyncRemote (pyStrip l ++ "/") (cfg.target_user.getD "") (cfg.target_host.getD ""),
         Cmd.ssh (cfg.target_user.getD "") (cfg.target_host.getD "") CHOWN_MYSQL_DIR_CMD,
         Cmd.ssh (cfg.target_user.getD "") (cfg.target_host.getD "") MYSQL_RESTART_CMD],
        some ()) := by
  have h1 : truthy (some "1") = true := rfl
  simp [restore_dispatch, restore, h1, hu, hh, hlast]

/-- Witness: `--local=1` with both remote parameters set still yields the
remote ssh/rsync sequence. -/
theorem restore_dispatch_local_flag_remote_wit :
    restore_dispatch (⟨"root", "123456", "/mysql_bak", some "u", some "h"⟩ : Config)
        (some "1") ⟨some ["/mysql_bak/B"], none⟩ =
      some ((prepare ⟨some ["/mysql_bak/B"], none⟩).1 ++
        [Cmd.ssh ((some "u" : Option String).getD "") ((some "h" : Option String).getD "")
           MYSQL_STOP_CMD,
         Cmd.rsyncRemote (pyStrip ("/mysql_bak/B") ++ "/")
           ((some "u" : Option String).getD "") ((some "h" : Option String).getD ""),
         Cmd.ssh ((some "u" : Option String).getD "") ((some "h" : Option String).getD "")
           CHOWN_MYSQL_DIR_CMD,
         Cmd.ssh ((some "u" : Option String).getD "") ((some "h" : Option String).getD "")
           MYSQL_RESTART_CMD],
        some ()) :=
  restore_dispatch_local_flag_remote
    (⟨"root", "123456", "/mysql_bak", some "u", some "h"⟩ : Config)
    ⟨some ["/mysql_bak/B"], none⟩ "/mysql_bak/B" rfl rfl rfl
